/-
Verification of the trip-planner workflow core against its specification.

The definitions below are shallow embeddings of the Python sources:
  - src/core/reducer.py        (the generic state-merge function)
  - src/core/schemas.py        (Context date validation, wrapper field names)
  - src/core/nodes.py          (research nodes, combined human review, routing)
  - src/workflows/planner.py   (the review-node variant wired into the service)
  - src/api/workflow_service.py (resume-payload reconciliation, token checks)

Python machine details carried over explicitly: string truthiness (None and
the empty string are falsy), dict-key presence versus value truthiness, and
pydantic construction with forbidden extra fields.
-/
import Mathlib

namespace TripPlanner

/-- Generic researched candidate item as the reducer in src/core/reducer.py
sees it: the reducer reads only the optional attributes id, name, url and
address through getattr with a None default, so a missing attribute and an
attribute holding None both embed as none. -/
structure Item where
  id : Option String := none
  name : Option String := none
  url : Option String := none
  address : Option String := none
  deriving DecidableEq, Repr

/-- Python truthiness of an optional string: None and the empty string are
falsy, every other string is truthy. -/
def optStrTruthy : Option String → Bool
  | none => false
  | some s => decide (s ≠ "")

/-- Dedup key computed by the nested helper in reducer.py lines 36-43: a
truthy id yields the id key, otherwise the fallback key combines the raw
name, url and address attribute values. -/
inductive CandidateKey where
  | byId (i : String)
  | fallback (name url address : Option String)
  deriving DecidableEq, Repr

/-- The candidate-key helper from reducer.py lines 36-43. -/
def candidateKey (it : Item) : CandidateKey :=
  if optStrTruthy it.id then .byId (it.id.getD "")
  else .fallback it.name it.url it.address

/-- Truthy ids collected from a candidate list, as built by the set
comprehensions in reducer.py lines 45-46 and 59. -/
def idsWithValues (items : List Item) : List String :=
  items.filterMap (fun it => if optStrTruthy it.id then it.id else none)

/-- All dedup keys of a candidate list (reducer.py lines 48-49). -/
def candidateKeys (items : List Item) : List CandidateKey :=
  items.map candidateKey

/-- subset_by_id from reducer.py line 51: the incoming truthy-id set is
non-empty and contained in the existing truthy-id set. -/
def subsetById (existingItems newItems : List Item) : Bool :=
  let existing_ids := idsWithValues existingItems
  let new_ids := idsWithValues newItems
  !new_ids.isEmpty && new_ids.all (fun i => decide (i ∈ existing_ids))

/-- subset_by_key from reducer.py line 52: no incoming item has a truthy id
and every incoming dedup key already occurs among the existing keys. -/
def subsetByKey (existingItems newItems : List Item) : Bool :=
  let existing_keys := candidateKeys existingItems
  (idsWithValues newItems).isEmpty
    && (candidateKeys newItems).all (fun k => decide (k ∈ existing_keys))

/-- The append-deduplicate loop of reducer.py lines 58-73: the accumulator
starts from the full existing list, each incoming item is appended unless its
truthy id is already in the id set, and an appended truthy id joins the set so
later incoming items dedup against it as well. -/
def appendDedup (ids : List String) (acc : List Item) : List Item → List Item
  | [] => acc
  | it :: rest =>
    if optStrTruthy it.id then
      let i := it.id.getD ""
      if i ∈ ids then appendDedup ids acc rest
      else appendDedup (i :: ids) (acc ++ [it]) rest
    else appendDedup ids (acc ++ [it]) rest

/-- Shallow embedding of reducer from src/core/reducer.py. Each of the four
agent output wrapper types declares exactly one model field, which holds the
candidate list, so the reflective first-field lookup in lines 20-31 always
resolves to that list and a wrapper value is embedded as the list itself.
The replacement branch (lines 35-56) fires only when both lists are
non-empty, the incoming list is no longer than the existing one and one of
the two subset tests holds; every other case falls through to the
append-deduplicate path (lines 58-77). -/
def reducer (existing new : Option (List Item)) : Option (List Item) :=
  match new with
  | none => existing
  | some newItems =>
    match existing with
    | none => some newItems
    | some existingItems =>
      if !existingItems.isEmpty && !newItems.isEmpty
          && decide (newItems.length ≤ existingItems.length)
          && (subsetById existingItems newItems || subsetByKey existingItems newItems)
      then some newItems
      else some (appendDedup (idsWithValues existingItems) existingItems newItems)

/-- Date fields of the trip Context (src/core/schemas.py lines 350-375).
Dates are embedded as linear day numbers; Python date subtraction yields the
exact difference in days. -/
structure TripContextDates where
  date_from : Int
  date_to : Int
  deriving DecidableEq, Repr

/-- The validate_dates model validator of Context (schemas.py lines 366-370):
construction fails exactly when date_from is strictly after date_to. -/
def mkTripContext (date_from date_to : Int) : Except String TripContextDates :=
  if date_from > date_to then .error "date_from must be before or equal to date_to"
  else .ok ⟨date_from, date_to⟩

/-- The days_number computed field of Context (schemas.py lines 372-375). -/
def days_number (c : TripContextDates) : Int :=
  c.date_to - c.date_from + 1

/-- CandidateResearch directive (schemas.py lines 90-98), all fields
optional. -/
structure CandidateResearchE where
  name : Option String := none
  description : Option String := none
  candidates_number : Option Int := none
  deriving DecidableEq, Repr

/-- ResearchPlan (schemas.py lines 101-108): one optional directive per
category. -/
structure ResearchPlanE where
  lodging_candidates : Option CandidateResearchE := none
  activities_candidates : Option CandidateResearchE := none
  food_candidates : Option CandidateResearchE := none
  intercity_transport_candidates : Option CandidateResearchE := none
  deriving DecidableEq, Repr

/-- Target of the conditional edge leaving combined_human_review: either the
planner node or a list of research nodes run in parallel. -/
inductive RouteTarget where
  | planner
  | research (nodes : List String)
  deriving DecidableEq, Repr

/-- The node-name list accumulated by route_from_human_response
(src/core/nodes.py lines 570-587), in the order the source appends them.
A pydantic model instance is always truthy in Python, so each category is
collected exactly when its directive is present. -/
def named_research_nodes (p : ResearchPlanE) : List String :=
  (if p.activities_candidates.isSome then ["research_activities"] else [])
    ++ (if p.food_candidates.isSome then ["research_food"] else [])
    ++ (if p.lodging_candidates.isSome then ["research_lodging"] else [])
    ++ (if p.intercity_transport_candidates.isSome then ["research_intercity_transport"] else [])

/-- route_from_human_response (src/core/nodes.py lines 568-589; the copy in
src/workflows/planner.py lines 442-463 is identical): no stored plan routes
to planner, otherwise the named research nodes run, falling back to planner
when the plan names no category. -/
def route_from_human_response (research_plan : Option ResearchPlanE) : RouteTarget :=
  match research_plan with
  | none => .planner
  | some p =>
    let nodes := named_research_nodes p
    if nodes.isEmpty then .planner else .research nodes

/-- The research_plan handling of the resumed combined_human_review node
(src/core/nodes.py lines 510-525): none models a resume payload whose
research_plan key is absent or falsy, which stores None into the state and
thereby clears the plan; a present truthy plan value is rebuilt category by
category (a serialized category sub-dict is a non-empty dict, hence truthy,
exactly when the category was present in the payload). -/
def review_research_plan_update (entry : Option ResearchPlanE) : Option ResearchPlanE :=
  match entry with
  | none => none
  | some d =>
    some ⟨d.lodging_candidates, d.activities_candidates, d.food_candidates,
      d.intercity_transport_candidates⟩

/-- One pending-selection entry assembled by combined_human_review before it
suspends: the category tag and the serialized candidate options. -/
structure SelectionEntry where
  category : String
  options : List Item
  deriving DecidableEq, Repr

/-- The slice of WorkflowState read by combined_human_review: the four
candidate wrappers (each embedded as the list its single field holds, none
when the wrapper is absent) and the stored research plan. -/
structure ReviewState where
  lodging : Option (List Item) := none
  intercity_transport : Option (List Item) := none
  activities : Option (List Item) := none
  food : Option (List Item) := none
  research_plan : Option ResearchPlanE := none
  deriving DecidableEq, Repr

/-- One truthiness-guarded entry of the interrupts_needed assembly: a
category contributes exactly when its wrapper is present and its list is
non-empty. -/
def selection_entry (category : String) (wrapper : Option (List Item)) : List SelectionEntry :=
  match wrapper with
  | none => []
  | some items => if items.isEmpty then [] else [⟨category, items⟩]

/-- interrupts_needed as assembled by the combined_human_review copy in
src/workflows/planner.py (lines 333-361), in source order: lodging,
intercity transport, activities, food. That copy runs against the
src/core/domain.py State and reads the intercity wrapper through its
declared field transport (line 342), so every category is a plain guarded
list read. -/
def interrupts_needed (s : ReviewState) : List SelectionEntry :=
  selection_entry "lodging" s.lodging
    ++ selection_entry "intercity_transport" s.intercity_transport
    ++ selection_entry "activities" s.activities
    ++ selection_entry "food" s.food

/-- Result of the first entry into the review node: a raised suspend signal
carrying the interrupt payload, an immediate empty update (noop) that lets
the run continue, or an uncaught Python exception escaping the node. -/
inductive ReviewStep where
  | suspend (task : String) (selections : List SelectionEntry)
      (research_plan : Option ResearchPlanE)
  | noop
  | raised (msg : String)
  deriving DecidableEq, Repr

/-- First entry into make_combined_human_review_node from src/core/nodes.py
(lines 459-503), which runs against the src/core/schemas.py State: when the
intercity transport wrapper is present, line 471 reads the attribute
intercity_transport on a model whose sole declared field is transport
(schemas.py lines 218-222), so the node raises AttributeError there,
whatever the list holds; otherwise the remaining entries are assembled in
source order (lodging at line 464, activities at 478, food at 485) and the
interrupt call at line 499 is unconditional, so the node always suspends. -/
def core_review_first_entry (s : ReviewState) : ReviewStep :=
  match s.intercity_transport with
  | some _ =>
    .raised "AttributeError: IntercityTransportAgentOutput object has no attribute intercity_transport"
  | none =>
    .suspend "Make your selections for the following options"
      (selection_entry "lodging" s.lodging ++ selection_entry "activities" s.activities
        ++ selection_entry "food" s.food)
      s.research_plan

/-- First entry into make_combined_human_review_node from
src/workflows/planner.py (lines 330-376): an empty assembly returns the
empty update at lines 363-364 before the interrupt call is reached. -/
def workflow_review_first_entry (s : ReviewState) : ReviewStep :=
  if (interrupts_needed s).isEmpty then .noop
  else
    .suspend "Make your selections for the following options" (interrupts_needed s)
      s.research_plan

/-- Pydantic construction of a wrapper model whose declared fields are all
required list fields and whose config forbids extra inputs (the four agent
output models in src/core/schemas.py and src/core/domain.py): every keyword
must name a declared field and every declared field must be supplied. -/
def pydantic_construct (modelFields : List String)
    (kwargs : List (String × List Item)) : Except String (List (String × List Item)) :=
  if kwargs.any (fun kv => !(decide (kv.fst ∈ modelFields))) then
    .error "extra inputs are not permitted"
  else if modelFields.any (fun f => !(decide (f ∈ kwargs.map Prod.fst))) then
    .error "field required"
  else .ok kwargs

/-- Construction of the typed empty default a research node builds before
invoking make_research, for a wrapper whose declared fields are modelFields,
called with a single empty-list keyword argument named kwargKey (for example
nodes.py line 261 passes lodging, line 360 passes intercity_transport). -/
def empty_default (modelFields : List String) (kwargKey : String) :
    Except String (List Item) :=
  match pydantic_construct modelFields [(kwargKey, [])] with
  | .error e => .error e
  | .ok _ => .ok []

/-- Normalised reply of the tool-using agent as make_research sees it:
the framework's pre-validated structured payload when it produced one, the
result of the tolerant JSON conversion of the last AI message otherwise
(none when that raw output is unparsable), and the message log. -/
structure AgentReply where
  structured_response : Option (List Item) := none
  parsed_raw : Option (List Item) := none
  messages : List String := []
  deriving DecidableEq, Repr

/-- hook.convert from src/core/post_processing.py lines 84-96: return the
pre-validated structured payload when present, otherwise the tolerant
conversion result, which is None when the raw output cannot be parsed. -/
def hook_convert (r : AgentReply) : Option (List Item) :=
  match r.structured_response with
  | some p => some p
  | none => r.parsed_raw

/-- Outcome of one research node invocation: either an uncaught exception
escaping the node, or the partial state update it returns. -/
inductive NodeOutcome where
  | raised (msg : String)
  | update (payload : Option (List Item)) (messages : List String)
  deriving DecidableEq, Repr

/-- make_research from src/core/nodes.py lines 82-133: the whole body sits in
one try block, so an agent call that raises is caught and becomes the typed
default plus an error message (lines 129-133). On success the output dict
always carries the structured_response key, so the .get default inside
_extract_agent_output (line 74) is never consulted and the converted payload
is returned as-is, even when the conversion produced None. -/
def make_research (agent_call : Except String AgentReply) (default : List Item) :
    NodeOutcome :=
  match agent_call with
  | .error e => .update (some default) ["Error: " ++ e]
  | .ok r => .update (hook_convert r) r.messages

/-- A research category node body from src/core/nodes.py: the typed empty
default is constructed before make_research runs (nodes.py lines 261, 294,
326, 360, 387), so a failed default construction raises straight out of the
node. -/
def research_node (default_construction : Except String (List Item))
    (agent_call : Except String AgentReply) : NodeOutcome :=
  match default_construction with
  | .error e => .raised e
  | .ok default => make_research agent_call default

/-- An agent output wrapper as stored in the session manager's pending-state
mapping: its single declared pydantic field name together with the candidate
list that field holds. LodgingAgentOutput declares lodging, the activities
and food wrappers declare activities and food, and
IntercityTransportAgentOutput declares transport (src/core/domain.py lines
103-169, src/core/schemas.py lines 156-222). -/
structure StoredAgentOutput where
  fieldName : String
  items : List Item
  deriving DecidableEq, Repr

/-- resolve_options from WorkflowBundle._build_resume_payload
(src/api/workflow_service.py lines 213-224): the stored output is looked up
under the state key and its options are read back through
hasattr(output, key), which succeeds only when the state key coincides with
the wrapper's declared field name; otherwise the function returns the empty
list. -/
def resolve_options (state : String → Option StoredAgentOutput) (key : String) :
    List Item :=
  match state key with
  | none => []
  | some output => if output.fieldName == key then output.items else []

/-- Single-choice selection handling for one category of
_build_resume_payload (workflow_service.py lines 232-241): a None index
skips the key, empty stored options raise, an index outside the interval
from 0 inclusive to the length exclusive raises, and otherwise the chosen
candidate is serialized into the payload. Python ints may be negative, hence
Int. -/
def build_single_selection (key : String) (index : Option Int)
    (options : List Item) : Except String (Option Item) :=
  match index with
  | none => .ok none
  | some i =>
    if options.isEmpty then
      .error ("No options stored for " ++ key ++ " to select from.")
    else if i < 0 ∨ (options.length : Int) ≤ i then
      .error ("Selection index " ++ toString i ++ " is out of range for " ++ key ++ ".")
    else .ok (options.get? i.toNat)

/-- The index-validation loop inside the multi-choice branch of
_build_resume_payload (workflow_service.py lines 256-260): each index is
bounds-checked in order and the corresponding options are collected. -/
def pick_indices (key : String) (idxs : List Int) (options : List Item) :
    Except String (List Item) :=
  match idxs with
  | [] => .ok []
  | i :: rest =>
    if i < 0 ∨ (options.length : Int) ≤ i then
      .error ("Selection index " ++ toString i ++ " is out of range for " ++ key ++ ".")
    else
      match pick_indices key rest options with
      | .error e => .error e
      | .ok sel => .ok ((options.get? i.toNat).toList ++ sel)

/-- Multi-choice selection handling for one category of _build_resume_payload
(workflow_service.py lines 249-263): a None index list skips the key, empty
stored options raise, and otherwise the validated sublist (empty when the
provided index list is empty, since the inner loop is guarded by the list's
truthiness) is serialized into the payload under the category key. -/
def build_multi_selection (key : String) (indices : Option (List Int))
    (options : List Item) : Except String (Option (List Item)) :=
  match indices with
  | none => .ok none
  | some idxs =>
    if options.isEmpty then
      .error ("No options stored for " ++ key ++ " to select from.")
    else
      match pick_indices key idxs options with
      | .error e => .error e
      | .ok selected => .ok (some selected)

/-- Activities and food handling after resume in
make_combined_human_review_node (src/core/nodes.py lines 527-543, identical
in src/workflows/planner.py lines 401-417): a resume-payload key that is
absent, or present with a falsy (empty) list, produces no state update for
the field. -/
def review_multi_update (entry : Option (List Item)) : Option (List Item) :=
  match entry with
  | none => none
  | some items => if items.isEmpty then none else some items

/-- How the graph runtime applies a node's partial update to one
reducer-governed candidate field of WorkflowState (src/core/schemas.py lines
314-317): a field missing from the update leaves the stored value untouched,
a present value is merged with the stored value through the reducer. -/
def apply_candidate_update (stored : Option (List Item))
    (update : Option (List Item)) : Option (List Item) :=
  match update with
  | none => stored
  | some items => reducer stored (some items)

/-- Outcome of resume_trip up to the graph invocation: a raised RuntimeError,
or the graph actually resumed for the given thread with the built payload. -/
inductive ResumeOutcome where
  | error (msg : String)
  | invoked (thread_id : String) (payload : List (String × List Item))
  deriving DecidableEq, Repr

/-- resume_trip from src/api/workflow_service.py lines 316-385, up to the
graph invocation: the thread id is read from the supplied config and the two
validation errors are raised first (lines 350-357); only when both checks
pass does the method build the resume payload (itself a possible
reconciliation error) and hand it to graph.ainvoke, modelled by the invoked
outcome. A missing configurable key or thread_id entry embeds as none, and
Python falsiness also rejects an empty thread id string. -/
def resume_trip (contexts : List String) (cfg_thread_id : Option String)
    (build_payload : Except String (List (String × List Item))) : ResumeOutcome :=
  match cfg_thread_id with
  | none => .error "Resume config must include configurable.thread_id."
  | some t =>
    if t = "" then .error "Resume config must include configurable.thread_id."
    else if !(decide (t ∈ contexts)) then
      .error ("Unknown planning thread " ++ t ++ ".")
    else
      match build_payload with
      | .error e => .error e
      | .ok payload => .invoked t payload

/-- Concrete pending-state mapping used to evaluate the resume-payload
reconciliation: one stored lodging candidate under the lodging key (the
wrapper's declared field is lodging) and one stored intercity transport
candidate under the intercity_transport key (the wrapper's declared field is
transport, per src/core/domain.py lines 165-169). -/
def pending_state_with_transport : String → Option StoredAgentOutput := fun key =>
  if key == "lodging" then
    some ⟨"lodging", [⟨some "L1", some "Hotel Aurora", none, none⟩]⟩
  else if key == "intercity_transport" then
    some ⟨"transport", [⟨none, some "Bullet Train", none, none⟩]⟩
  else none

/-- Claim C1. Reducer subset-replacement: when the incoming list is
non-empty, no longer than the existing list, carries truthy ids, and every
incoming id already occurs among the existing truthy ids, the merge replaces
the existing list wholesale with the incoming list instead of appending. The
concrete spec scenario existing A(1), B(2), C(3) with incoming B(2) is the
witness instance. -/
theorem reducer_subset_replacement (existing new : List Item)
    (hex : existing ≠ []) (hne : new ≠ [])
    (hlen : new.length ≤ existing.length)
    (hids : idsWithValues new ≠ [])
    (hsub : ∀ i ∈ idsWithValues new, i ∈ idsWithValues existing) :
    reducer (some existing) (some new) = some new := by
  have hid : subsetById existing new = true := by
    simp only [subsetById, Bool.and_eq_true, List.all_eq_true]
    constructor
    · simpa [List.isEmpty_iff] using hids
    · intro i hi
      simpa using hsub i hi
  have hcond : (!existing.isEmpty && !new.isEmpty
      && decide (new.length ≤ existing.length)
      && (subsetById existing new || subsetByKey existing new)) = true := by
    simp [hid, hlen, List.isEmpty_iff, hex, hne]
  simp [reducer, hcond]

/-- Witness for C1: merging existing A(id 1), B(id 2), C(id 3) with incoming
B(id 2) returns exactly the incoming singleton. -/
theorem reducer_subset_replacement_witness :
    reducer (some [⟨some "1", none, none, none⟩, ⟨some "2", none, none, none⟩,
        ⟨some "3", none, none, none⟩])
      (some [⟨some "2", none, none, none⟩]) = some [⟨some "2", none, none, none⟩] :=
  reducer_subset_replacement _ _ (by decide) (by decide) (by decide) (by decide)
    (by decide)

/-- Claim C2 (evaluation of both review-node variants at the claimed
inputs): on a WorkflowState whose four candidate fields are all absent, the
combined_human_review of src/core/nodes.py still suspends, raising an
interrupt whose selections list is empty; on a state whose wrappers are
present but hold empty lists it does not suspend either, it raises an
AttributeError at the intercity wrapper read. The variant in
src/workflows/planner.py returns the empty update in both situations and the
run proceeds. The claim describes the latter behaviour; the cited nodes.py
code contradicts it on both inputs. -/
theorem combined_review_empty_state :
    core_review_first_entry ⟨none, none, none, none, none⟩
      = .suspend "Make your selections for the following options" [] none
    ∧ core_review_first_entry ⟨some [], some [], some [], some [], none⟩
      = .raised "AttributeError: IntercityTransportAgentOutput object has no attribute intercity_transport"
    ∧ workflow_review_first_entry ⟨none, none, none, none, none⟩ = .noop
    ∧ workflow_review_first_entry ⟨some [], some [], some [], some [], none⟩ = .noop := by
  decide

/-- Claim C3 (evaluation of the research-node error handling): make_research
catches any agent exception and substitutes the typed empty default for the
lodging, activities and food categories, but the intercity transport node of
src/core/nodes.py constructs its default with the keyword intercity_transport
against a wrapper whose sole declared field is transport, so that
construction raises on every invocation, before make_research can catch
anything. The final conjunct records that a successfully returned but
unparsable reply yields a None payload, not the typed default. -/
theorem degraded_research_error_handling :
    empty_default ["transport"] "intercity_transport"
      = .error "extra inputs are not permitted"
    ∧ (∀ call : Except String AgentReply,
        research_node (empty_default ["transport"] "intercity_transport") call
          = .raised "extra inputs are not permitted")
    ∧ research_node (empty_default ["lodging"] "lodging") (.error "boom")
        = .update (some []) ["Error: boom"]
    ∧ research_node (empty_default ["activities"] "activities") (.error "boom")
        = .update (some []) ["Error: boom"]
    ∧ research_node (empty_default ["food"] "food") (.error "boom")
        = .update (some []) ["Error: boom"]
    ∧ research_node (empty_default ["lodging"] "lodging")
        (.ok ⟨none, none, ["unparsable reply"]⟩) = .update none ["unparsable reply"] := by
  exact ⟨rfl, fun call => rfl, rfl, rfl, rfl, rfl⟩

/-- Witness for C3: a concrete failing agent call against the intercity
transport node still ends in the raised construction error. -/
theorem degraded_research_error_handling_witness :
    research_node (empty_default ["transport"] "intercity_transport")
      (.error "agent failure") = .raised "extra inputs are not permitted" :=
  degraded_research_error_handling.2.1 _

/-- Claim C4 counterexample: replaying an id-less singleton X through the
merge yields a list of length 1, not the claimed double length 2, because the
identical fallback keys satisfy the subset-replacement rule. -/
theorem reducer_identical_replay_counterexample :
    ¬ ((reducer (some [⟨none, some "x", none, none⟩])
        (some [⟨none, some "x", none, none⟩])).map List.length = some 2) := by
  decide

/-- Claim C4 as amended: merge(X, X) always returns X itself. With no truthy
ids the identical fallback keys trigger the subset-replacement rule, with ids
the id-subset rule triggers it, and an empty list falls through to an append
pass that appends nothing, so the replayed list never doubles. -/
theorem reducer_identical_replay (l : List Item) :
    reducer (some l) (some l) = some l := by
  cases l with
  | nil => decide
  | cons x xs =>
    have hsub : (subsetById (x :: xs) (x :: xs)
        || subsetByKey (x :: xs) (x :: xs)) = true := by
      rw [Bool.or_eq_true]
      by_cases h : (idsWithValues (x :: xs)).isEmpty = true
      · right
        simp only [subsetByKey, Bool.and_eq_true, List.all_eq_true]
        exact ⟨h, fun k hk => by simpa using hk⟩
      · left
        simp only [subsetById, Bool.and_eq_true, List.all_eq_true]
        constructor
        · simp only [Bool.not_eq_true] at h
          simp [h]
        · intro i hi
          simpa using hi
    simp [reducer, hsub]

/-- Witness for C4 (amended): a concrete mixed list replayed through the
merge comes back unchanged. -/
theorem reducer_identical_replay_witness :
    reducer (some [⟨some "7", none, none, none⟩, ⟨none, some "y", none, none⟩])
      (some [⟨some "7", none, none, none⟩, ⟨none, some "y", none, none⟩])
      = some [⟨some "7", none, none, none⟩, ⟨none, some "y", none, none⟩] :=
  reducer_identical_replay _

/-- Claim C5. Reducer superset-append: with existing A(1) and incoming
A(1), B(2) the incoming list is longer, so the replacement rule does not
apply and the append path keeps the existing list as a prefix, skips the
duplicate id and appends B. The remaining conjuncts characterise the append
path in general: an item without a truthy id is always appended, an item
whose truthy id is already among the accumulated ids is skipped, and a fresh
truthy id is appended while joining the accumulated ids. -/
theorem reducer_superset_append :
    (∀ na ua pa nb ub pb : Option String,
        reducer (some [⟨some "1", na, ua, pa⟩])
          (some [⟨some "1", na, ua, pa⟩, ⟨some "2", nb, ub, pb⟩])
        = some [⟨some "1", na, ua, pa⟩, ⟨some "2", nb, ub, pb⟩])
    ∧ (∀ (ids : List String) (acc rest : List Item) (it : Item),
        optStrTruthy it.id = false →
          appendDedup ids acc (it :: rest) = appendDedup ids (acc ++ [it]) rest)
    ∧ (∀ (ids : List String) (acc rest : List Item) (it : Item) (i : String),
        it.id = some i → i ≠ "" → i ∈ ids →
          appendDedup ids acc (it :: rest) = appendDedup ids acc rest)
    ∧ (∀ (ids : List String) (acc rest : List Item) (it : Item) (i : String),
        it.id = some i → i ≠ "" → i ∉ ids →
          appendDedup ids acc (it :: rest) = appendDedup (i :: ids) (acc ++ [it]) rest) := by
  refine ⟨?_, ?_, ?_, ?_⟩
  · intro na ua pa nb ub pb
    have t1 : optStrTruthy (some "1") = true := by decide
    have t2 : optStrTruthy (some "2") = true := by decide
    simp [reducer, appendDedup, idsWithValues, t1, t2, Option.getD]
  · intro ids acc rest it h
    simp [appendDedup, h]
  · intro ids acc rest it i h1 h2 h3
    simp [appendDedup, h1, optStrTruthy, h2, h3, Option.getD]
  · intro ids acc rest it i h1 h2 h3
    simp [appendDedup, h1, optStrTruthy, h2, h3, Option.getD]

/-- Witness for C5: the concrete superset-append scenario and one concrete
instance of each append-path step. -/
theorem reducer_superset_append_witness :
    reducer (some [⟨some "1", none, none, none⟩])
      (some [⟨some "1", none, none, none⟩, ⟨some "2", none, none, none⟩])
      = some [⟨some "1", none, none, none⟩, ⟨some "2", none, none, none⟩]
    ∧ appendDedup ["1"] [] [⟨some "1", none, none, none⟩] = []
    ∧ appendDedup ["1"] [] [⟨some "2", none, none, none⟩] = [⟨some "2", none, none, none⟩]
    ∧ appendDedup ["1"] [] [⟨none, some "n", none, none⟩] = [⟨none, some "n", none, none⟩] := by
  refine ⟨reducer_superset_append.1 none none none none none none, ?_, ?_, ?_⟩
  · exact (reducer_superset_append.2.2.1 ["1"] [] [] ⟨some "1", none, none, none⟩ "1"
      rfl (by decide) (by decide)).trans rfl
  · exact (reducer_superset_append.2.2.2 ["1"] [] [] ⟨some "2", none, none, none⟩ "2"
      rfl (by decide) (by decide)).trans rfl
  · exact (reducer_superset_append.2.1 ["1"] [] [] ⟨none, some "n", none, none⟩
      rfl).trans rfl

/-- Claim C6 (evaluation of the selection-index reconciliation at the claimed
inputs): for lodging the stored list resolves and an in-range index
serializes the chosen candidate while an index equal to the length raises,
exactly as claimed; but for intercity transport the hasattr lookup under the
key intercity_transport misses the wrapper field transport, the stored list
resolves to empty, and index 0 on a 1-element stored list raises the
no-options error instead of serializing the sole element. -/
theorem selection_index_resolution :
    resolve_options pending_state_with_transport "lodging"
      = [⟨some "L1", some "Hotel Aurora", none, none⟩]
    ∧ build_single_selection "lodging" (some 0)
        (resolve_options pending_state_with_transport "lodging")
      = .ok (some ⟨some "L1", some "Hotel Aurora", none, none⟩)
    ∧ build_single_selection "lodging" (some 1)
        (resolve_options pending_state_with_transport "lodging")
      = .error "Selection index 1 is out of range for lodging."
    ∧ resolve_options pending_state_with_transport "intercity_transport" = []
    ∧ build_single_selection "intercity_transport" (some 0)
        (resolve_options pending_state_with_transport "intercity_transport")
      = .error "No options stored for intercity_transport to select from." := by
  exact ⟨rfl, rfl, rfl, rfl, rfl⟩

/-- Claim C7. Post-review routing: the node list accumulated from the stored
research plan contains each research node exactly when the corresponding
directive is present; a plan naming at least one category routes to exactly
those research nodes; an absent plan, or a plan naming no category, routes to
the planner; and a resume payload that omits the research_plan key clears the
stored plan, so the subsequent routing goes to the planner. -/
theorem post_review_routing :
    (∀ p : ResearchPlanE,
        ("research_lodging" ∈ named_research_nodes p
          ↔ p.lodging_candidates.isSome = true)
        ∧ ("research_activities" ∈ named_research_nodes p
          ↔ p.activities_candidates.isSome = true)
        ∧ ("research_food" ∈ named_research_nodes p
          ↔ p.food_candidates.isSome = true)
        ∧ ("research_intercity_transport" ∈ named_research_nodes p
          ↔ p.intercity_transport_candidates.isSome = true))
    ∧ (∀ p : ResearchPlanE, named_research_nodes p ≠ [] →
        route_from_human_response (some p) = .research (named_research_nodes p))
    ∧ route_from_human_response none = .planner
    ∧ (∀ p : ResearchPlanE, named_research_nodes p = [] →
        route_from_human_response (some p) = .planner)
    ∧ review_research_plan_update none = none
    ∧ route_from_human_response (review_research_plan_update none) = .planner := by
  refine ⟨?_, ?_, rfl, ?_, rfl, rfl⟩
  · intro p
    rcases p with ⟨l, a, f, i⟩
    cases l <;> cases a <;> cases f <;> cases i <;> simp [named_research_nodes]
  · intro p h
    simp [route_from_human_response, List.isEmpty_iff, h]
  · intro p h
    simp [route_from_human_response, h]

/-- Witness for C7: a plan naming only activities routes to exactly the
activities research node, the empty plan routes to the planner, and the
membership characterisation holds at the same plan. -/
theorem post_review_routing_witness :
    named_research_nodes ⟨none, some ⟨none, none, some 2⟩, none, none⟩ ≠ []
    ∧ route_from_human_response (some ⟨none, some ⟨none, none, some 2⟩, none, none⟩)
        = .research ["research_activities"]
    ∧ named_research_nodes ⟨none, none, none, none⟩ = []
    ∧ route_from_human_response (some ⟨none, none, none, none⟩) = .planner
    ∧ ("research_activities"
          ∈ named_research_nodes ⟨none, some ⟨none, none, some 2⟩, none, none⟩
        ↔ (some (⟨none, none, some 2⟩ : CandidateResearchE)).isSome = true) := by
  refine ⟨by decide, ?_, by decide, ?_, ?_⟩
  · exact post_review_routing.2.1 _ (by decide)
  · exact post_review_routing.2.2.2.1 _ (by decide)
  · exact (post_review_routing.1 _).2.1

/-- Claim C8. Resume token validation: a config without a truthy thread id,
or with a thread id that no prior start registered, makes resume_trip raise
its caller-facing error, and the graph is never invoked in those cases (an
invoked outcome is only reachable for a registered thread id). -/
theorem resume_token_validation (contexts : List String)
    (payload : Except String (List (String × List Item))) :
    resume_trip contexts none payload
      = .error "Resume config must include configurable.thread_id."
    ∧ resume_trip contexts (some "") payload
      = .error "Resume config must include configurable.thread_id."
    ∧ (∀ t : String, t ≠ "" → t ∉ contexts →
        resume_trip contexts (some t) payload
          = .error ("Unknown planning thread " ++ t ++ "."))
    ∧ (∀ (t tid : String) (pl : List (String × List Item)),
        resume_trip contexts (some t) payload = .invoked tid pl → t ∈ contexts) := by
  refine ⟨rfl, rfl, ?_, ?_⟩
  · intro t h1 h2
    simp [resume_trip, h1, h2]
  · intro t tid pl h
    by_cases h1 : t = ""
    · simp [resume_trip, h1] at h
    · by_cases h2 : t ∈ contexts
      · exact h2
      · simp [resume_trip, h1, h2] at h

/-- Witness for C8: with one registered session, a config without a thread id
and a config naming an unknown thread both raise before any invocation. -/
theorem resume_token_validation_witness :
    resume_trip ["trip_a"] none (.ok [])
      = .error "Resume config must include configurable.thread_id."
    ∧ resume_trip ["trip_a"] (some "trip_b") (.ok [])
      = .error "Unknown planning thread trip_b." := by
  refine ⟨(resume_token_validation ["trip_a"] (.ok [])).1, ?_⟩
  exact (resume_token_validation ["trip_a"] (.ok [])).2.2.1 "trip_b" (by decide)
    (by decide)

/-- Claim C9. TripContext date invariant: construction with date_from
strictly after date_to raises the validation error; every successful
construction yields a day count of the date difference plus one; and equal
dates give a 1-day trip. -/
theorem context_date_invariant :
    (∀ f t : Int, f > t →
        mkTripContext f t = .error "date_from must be before or equal to date_to")
    ∧ (∀ (f t : Int) (c : TripContextDates),
        mkTripContext f t = .ok c → days_number c = t - f + 1)
    ∧ (∀ f : Int, mkTripContext f f = .ok ⟨f, f⟩ ∧ days_number ⟨f, f⟩ = 1) := by
  refine ⟨?_, ?_, ?_⟩
  · intro f t h
    simp [mkTripContext, h]
  · intro f t c h
    by_cases hft : f > t
    · simp [mkTripContext, hft] at h
    · simp [mkTripContext, hft] at h
      subst h
      simp [days_number]
  · intro f
    exact ⟨by simp [mkTripContext], by simp [days_number]⟩

/-- Witness for C9: day 5 after day 4 is rejected, a same-day trip counts one
day, and a 5-day span counts five days. -/
theorem context_date_invariant_witness :
    mkTripContext 5 4 = .error "date_from must be before or equal to date_to"
    ∧ (mkTripContext 3 3 = .ok ⟨3, 3⟩ ∧ days_number ⟨3, 3⟩ = 1)
    ∧ days_number ⟨10, 14⟩ = 5 := by
  refine ⟨context_date_invariant.1 5 4 (by decide), context_date_invariant.2.2 3, ?_⟩
  exact context_date_invariant.2.1 10 14 ⟨10, 14⟩ rfl

/-- Claim C10. Empty multi-choice selection keeps stored candidates: with at
least one stored candidate, an explicitly empty index list serializes an
empty list into the resume payload, the review node treats the falsy empty
list as no update for the field, and applying no update leaves the stored
candidate list unchanged. -/
theorem empty_multi_selection_keeps_candidates (key : String) (stored : List Item)
    (h : stored ≠ []) :
    build_multi_selection key (some []) stored = .ok (some [])
    ∧ review_multi_update (some []) = none
    ∧ apply_candidate_update (some stored) (review_multi_update (some []))
      = some stored := by
  obtain ⟨x, xs, rfl⟩ : ∃ x xs, stored = x :: xs := by
    cases stored with
    | nil => exact absurd rfl h
    | cons x xs => exact ⟨x, xs, rfl⟩
  exact ⟨rfl, rfl, rfl⟩

/-- Witness for C10: an empty activities selection over one stored candidate
leaves that candidate in place. -/
theorem empty_multi_selection_keeps_candidates_witness :
    build_multi_selection "activities" (some [])
        [⟨some "A1", some "Sushi Workshop", none, none⟩] = .ok (some [])
    ∧ review_multi_update (some []) = none
    ∧ apply_candidate_update (some [⟨some "A1", some "Sushi Workshop", none, none⟩])
        (review_multi_update (some []))
      = some [⟨some "A1", some "Sushi Workshop", none, none⟩] :=
  empty_multi_selection_keeps_candidates "activities" _ (by decide)

end TripPlanner
